import Mathlib

/-! The captplanet `run` command and the satellitedb project members.

A shallow embedding of

* `cmd/captplanet/run.go`: the `runCfg` configuration tree and `cmdRun`, which
  starts miniredis, the satellite, the storage nodes and the s3 uplink and then
  collects errors from a shared channel;
* `pkg/satellite/satellitedb/projectmembers.go`: `projectMemberFromDBX` and
  `projectMembersFromDbxSlice`.

Everything the code obtains from outside (the result of `StartAddr`, of opening
the database, of `Identity.Load`, of the `Run` calls, and the moment at which a
goroutine's send reaches the collector) is read from a `World` value, so that
`cmdRun` is a total function of the world and the initial configuration.
-/

namespace Captplanet

/-! ## Configuration tree (`run.go`, lines 37-78) -/

/-- The constant `storagenodeCount`. -/
def storagenodeCount : Nat := 10

/-- The text of a Go `error` value. -/
abbrev Err := String

/-- Configuration sections whose declarations live in other packages and of
which `cmdRun` reads no field; they are carried around unchanged. -/
abbrev Section := String

/-- The `Server` part of `provider.IdentityConfig`; `cmdRun` reads `Address`. -/
structure ServerConfig where
  Address : String
  rest : Section
  deriving DecidableEq, Repr

/-- The type `provider.IdentityConfig`; `cmdRun` reads `Server.Address`. -/
structure IdentityConfig where
  Server : ServerConfig
  rest : Section
  deriving DecidableEq, Repr

/-- The type `audit.Config`; `cmdRun` reads and writes `SatelliteAddr`. -/
structure AuditConfig where
  SatelliteAddr : String
  rest : Section
  deriving DecidableEq, Repr

/-- The type `satelliteweb.Config`; `cmdRun` reads and writes `SatelliteAddr`. -/
structure WebConfig where
  SatelliteAddr : String
  rest : Section
  deriving DecidableEq, Repr

/-- The struct `Satellite`, with its fourteen fields in declaration order. -/
structure Satellite where
  Identity : IdentityConfig
  Kademlia : Section
  PointerDB : Section
  Overlay : Section
  Inspector : Section
  Checker : Section
  Repairer : Section
  Audit : AuditConfig
  BwAgreement : Section
  Web : WebConfig
  Database : String
  Discovery : Section
  Tally : Section
  Rollup : Section
  deriving DecidableEq, Repr

/-- The struct `StorageNode`. -/
structure StorageNode where
  Identity : IdentityConfig
  Kademlia : Section
  Storage : Section
  deriving DecidableEq, Repr

/-- The `Minio` part of `miniogw.Config`; `cmdRun` prints both keys. -/
structure MinioConfig where
  AccessKey : String
  SecretKey : String
  rest : Section
  deriving DecidableEq, Repr

/-- The type `miniogw.Config` of `runCfg.Uplink`. -/
structure UplinkConfig where
  Identity : IdentityConfig
  Minio : MinioConfig
  rest : Section
  deriving DecidableEq, Repr

/-- The Go array type `[storagenodeCount]StorageNode`: a list together with the
fact that it has exactly `storagenodeCount` entries. -/
structure StorageNodeArray where
  toList : List StorageNode
  size_eq : toList.length = storagenodeCount

/-- The package variable `runCfg`. -/
structure RunCfg where
  Satellite : Satellite
  StorageNodes : StorageNodeArray
  Uplink : UplinkConfig

/-! ## The satellite's address defaulting (`run.go`, lines 105-111) -/

/-- Lines 105-107: `if runCfg.Satellite.Audit.SatelliteAddr == ""` the audit
address is set to `runCfg.Satellite.Identity.Server.Address`. -/
def defaultAuditAddr (runCfg : RunCfg) : RunCfg :=
  if runCfg.Satellite.Audit.SatelliteAddr = "" then
    { runCfg with
      Satellite := { runCfg.Satellite with
        Audit := { runCfg.Satellite.Audit with
          SatelliteAddr := runCfg.Satellite.Identity.Server.Address } } }
  else runCfg

/-- Lines 109-111: `if runCfg.Satellite.Web.SatelliteAddr == ""` the web
address is set to `runCfg.Satellite.Identity.Server.Address`. -/
def defaultWebAddr (runCfg : RunCfg) : RunCfg :=
  if runCfg.Satellite.Web.SatelliteAddr = "" then
    { runCfg with
      Satellite := { runCfg.Satellite with
        Web := { runCfg.Satellite.Web with
          SatelliteAddr := runCfg.Satellite.Identity.Server.Address } } }
  else runCfg

/-- Lines 105-111, the two assignments in program order. -/
def defaultSatelliteAddrs (runCfg : RunCfg) : RunCfg :=
  defaultWebAddr (defaultAuditAddr runCfg)

/-! ## The outside world -/

/-- What a call of a role's blocking `Run` does. -/
inductive RunOutcome where
  /-- The call does not return while `cmdRun` is running. -/
  | blocks
  /-- The call returns `err`; `none` is Go's `nil`. -/
  | returns (err : Option Err)
  deriving DecidableEq, Repr

/-- Everything `cmdRun` and its goroutines obtain from outside the program.
An `Option Err` result is an `error`: `none` is `nil`.  A delay is the time, in
milliseconds after error collection has begun, at which a goroutine's value is
received from `errch` (`0` when it was already waiting in the buffer). -/
structure World where
  /-- Result of `m.StartAddr(":6378")`. -/
  StartAddr : Option Err
  /-- Error result of `satellitedb.New` on a connection string. -/
  New : String → Option Err
  /-- Result of `database.CreateTables()`. -/
  CreateTables : Option Err
  /-- Behaviour of `runCfg.Satellite.Identity.Run`. -/
  satelliteRun : RunOutcome
  /-- Result of `v.Identity.Load()` for storage node `i`: the identity's
  `ID.String()` or an error. -/
  Load : Nat → Except Err String
  /-- Behaviour of `v.Identity.Run` for storage node `i`. -/
  storagenodeRun : Nat → RunOutcome
  /-- Behaviour of `runCfg.Uplink.Run`. -/
  uplinkRun : RunOutcome
  satelliteDelay : Nat
  storagenodeDelay : Nat → Nat
  uplinkDelay : Nat

/-- The producers of values on `errch`. -/
inductive Role where
  | cache
  | satellite
  | storagenode (i : Nat)
  | uplink
  deriving DecidableEq, Repr

/-- One value sent on `errch`. -/
structure Record where
  role : Role
  delay : Nat
  err : Option Err
  deriving DecidableEq, Repr

/-- What a goroutine does, in its own program order. -/
inductive RoleEvent where
  | Printf (text : String)
  | New (database : String)
  | CreateTables
  | WithValue (key : String)
  | satelliteRun (cfg : Satellite)
  | Load (i : Nat)
  | storagenodeRun (i : Nat) (v : StorageNode)
  | uplinkRun (cfg : UplinkConfig)
  deriving DecidableEq, Repr

/-- The effect of one goroutine: its events and what it sends on `errch`. -/
structure Goroutine where
  events : List RoleEvent
  sent : List Record
  deriving DecidableEq, Repr

/-- The actions of `cmdRun` itself (the supervising goroutine), in order. -/
inductive Action where
  | monTask
  | makeChan (capacity : Nat)
  | NewMiniRedis
  | RequireAuth (password : String)
  | StartAddr (addr : String)
  | send (err : Err)
  | deferClose
  | goSatellite
  | Sleep (ms : Nat)
  | goStorageNode (i : Nat) (v : StorageNode)
  | goUplink
  | CollectErrors (window : Nat)
  | Close
  | monTaskFinish
  deriving DecidableEq, Repr

/-- The shape of `utils.CollectErrors(errch, duration)`: from the values that
arrive on the channel, each with its delay, and the duration, either `none`
(the call never returns) or the time of return and the errors it combines. -/
abbrev Collector := List (Nat × Option Err) → Nat → Option (Nat × List Err)

/-! ## The goroutines of `cmdRun` -/

/-- The goroutine of lines 101-147: the configuration it leaves in `runCfg`
and what it does. -/
def satelliteGoroutine (w : World) (runCfg : RunCfg) : RunCfg × Goroutine :=
  let banner := RoleEvent.Printf
    ("Starting satellite on " ++ runCfg.Satellite.Identity.Server.Address ++ "\n")
  let runCfg := defaultSatelliteAddrs runCfg
  let open_ := RoleEvent.New runCfg.Satellite.Database
  match w.New runCfg.Satellite.Database with
  | some err =>
    (runCfg, ⟨[banner, open_],
      [⟨Role.satellite, w.satelliteDelay,
        some ("Error starting master database on satellite: " ++ err)⟩]⟩)
  | none =>
    match w.CreateTables with
    | some err =>
      (runCfg, ⟨[banner, open_, RoleEvent.CreateTables],
        [⟨Role.satellite, w.satelliteDelay,
          some ("Error creating tables for master database on satellite: " ++ err)⟩]⟩)
    | none =>
      let events := [banner, open_, RoleEvent.CreateTables, RoleEvent.WithValue "masterdb",
        RoleEvent.satelliteRun runCfg.Satellite]
      match w.satelliteRun with
      | RunOutcome.blocks => (runCfg, ⟨events, []⟩)
      | RunOutcome.returns err => (runCfg, ⟨events, [⟨Role.satellite, w.satelliteDelay, err⟩]⟩)

/-- The goroutine of lines 154-165, started with its own copies of `i` and `v`. -/
def storagenodeGoroutine (w : World) (i : Nat) (v : StorageNode) : Goroutine :=
  match w.Load i with
  | Except.error _ => ⟨[RoleEvent.Load i], []⟩
  | Except.ok id =>
    let address := v.Identity.Server.Address
    let storagenode := id ++ ":" ++ address
    let events := [RoleEvent.Load i,
      RoleEvent.Printf ("Starting storage node " ++ toString i ++ " " ++ storagenode ++
        " (kad on " ++ address ++ ")\n"),
      RoleEvent.storagenodeRun i v]
    match w.storagenodeRun i with
    | RunOutcome.blocks => ⟨events, []⟩
    | RunOutcome.returns err => ⟨events, [⟨Role.storagenode i, w.storagenodeDelay i, err⟩]⟩

/-- The goroutine of lines 169-175. -/
def uplinkGoroutine (w : World) (cfg : UplinkConfig) : Goroutine :=
  let events := [RoleEvent.Printf ("Starting s3-gateway on " ++ cfg.Identity.Server.Address ++
      "\nAccess key: " ++ cfg.Minio.AccessKey ++ "\nSecret key: " ++ cfg.Minio.SecretKey ++ "\n"),
    RoleEvent.uplinkRun cfg]
  match w.uplinkRun with
  | RunOutcome.blocks => ⟨events, []⟩
  | RunOutcome.returns err => ⟨events, [⟨Role.uplink, w.uplinkDelay, err⟩]⟩

/-- The loop of lines 153-166 from index `i` on: for each entry one `go`
action of `cmdRun` paired with the goroutine it starts. -/
def startStorageNodes (w : World) : Nat → List StorageNode → List (Action × Goroutine)
  | _, [] => []
  | i, v :: vs =>
    (Action.goStorageNode i v, storagenodeGoroutine w i v) :: startStorageNodes w (i + 1) vs

/-! ## `cmdRun` (`run.go`, lines 85-178) -/

/-- One run of `cmdRun`. -/
structure Run where
  /-- The value of the package variable `runCfg` afterwards. -/
  runCfg : RunCfg
  /-- The capacity `errch` was made with. -/
  capacity : Nat
  /-- The actions of `cmdRun` itself, in order. -/
  actions : List Action
  /-- The events of the goroutines: satellite, storage nodes by index, uplink. -/
  events : List RoleEvent
  /-- Every value sent on `errch`. -/
  sent : List Record
  /-- The result of `utils.CollectErrors`, which `cmdRun` returns; `none` when
  it never returns. -/
  ret : Option (Nat × List Err)

/-- The function `cmdRun`.  `CollectErrors` stands for `utils.CollectErrors`,
whose source is in another package. -/
def cmdRun (CollectErrors : Collector) (w : World) (runCfg : RunCfg) : Run :=
  -- lines 86-92
  let capacity := runCfg.StorageNodes.toList.length + 2
  let setup := [Action.monTask, Action.makeChan capacity, Action.NewMiniRedis,
    Action.RequireAuth "abc123", Action.StartAddr ":6378"]
  -- lines 94-98: (actions, values sent, deferred calls)
  let cache : List Action × List Record × List Action :=
    match w.StartAddr with
    | some err => ([Action.send err], [⟨Role.cache, 0, some err⟩], [])
    | none => ([Action.deferClose], [], [Action.Close])
  -- lines 101-147
  let satellite := satelliteGoroutine w runCfg
  -- lines 153-166
  let nodes := startStorageNodes w 0 runCfg.StorageNodes.toList
  -- lines 169-175
  let uplink := uplinkGoroutine w runCfg.Uplink
  let sent := cache.2.1 ++ satellite.2.sent ++ (nodes.map fun n => n.2.sent).flatten ++ uplink.sent
  -- line 177
  let ret := CollectErrors (sent.map fun r => (r.delay, r.err)) 5000
  let body := setup ++ cache.1 ++ [Action.goSatellite, Action.Sleep 2000] ++
    nodes.map Prod.fst ++ [Action.goUplink, Action.CollectErrors 5000]
  { runCfg := satellite.1
    capacity := capacity
    actions :=
      match ret with
      | none => body
      | some _ => body ++ cache.2.2 ++ [Action.monTaskFinish]
    events := satellite.2.events ++ (nodes.map fun n => n.2.events).flatten ++ uplink.events
    sent := sent
    ret := ret }

/-! ## Error collection as the specification words it -/

/-- The failure records among the values on the channel: a `nil` value is the
outcome of a role that ended without error and is no failure record. -/
def failureRecords (errch : List (Nat × Option Err)) : List (Nat × Err) :=
  errch.filterMap fun r => r.2.map fun e => (r.1, e)

/-- The earliest of a list of timed records, the first one among equals. -/
def earliest : List (Nat × Err) → Option (Nat × Err)
  | [] => none
  | r :: rs =>
    match earliest rs with
    | none => some r
    | some r' => if r.1 ≤ r'.1 then some r else some r'

/-- Modelled from the spec: `utils.CollectErrors` (package
`storj.io/storj/pkg/utils`), which `cmdRun` calls on line 177 and whose source
is in another package.  Transitions 5 to 7 of the supervisor: the
failure records observed during the aggregation window are accumulated; when
the window ends with some accumulated, the call returns their combination;
when it ends with none, supervision goes on with no limit of time, and the
first failure record observed afterwards ends it; with no failure record at
all the call never returns. -/
def CollectErrors : Collector := fun errch window =>
  let failures := failureRecords errch
  let inWindow := failures.filter fun r => r.1 ≤ window
  if inWindow ≠ [] then some (window, inWindow.map Prod.snd)
  else
    match earliest failures with
    | none => none
    | some r => some (r.1, [r.2])

end Captplanet

namespace Satellitedb

/-! ## `projectmembers.go`, lines 98-144 -/

/-- The text of a Go `error` value. -/
abbrev Err := String

/-- A Go `[]byte`. -/
abbrev Bytes := List (Fin 256)

/-- The type `uuid.UUID`, an array of bytes. -/
structure UUID where
  bytes : Bytes
  deriving DecidableEq, Repr

/-- A Go `time.Time`, as a count of nanoseconds. -/
abbrev Time := Int

/-- The fields of `dbx.ProjectMember` that the conversion reads. -/
structure DbxProjectMember where
  Id : Bytes
  MemberId : Bytes
  ProjectId : Bytes
  CreatedAt : Time
  deriving DecidableEq, Repr

/-- The struct `satellite.ProjectMember` as the conversion fills it. -/
structure ProjectMember where
  ID : UUID
  MemberID : UUID
  ProjectID : UUID
  CreatedAt : Time
  deriving DecidableEq, Repr

/-- The function `projectMemberFromDBX`.  The argument is a pointer, `none`
being `nil`; `bytesToUUID` is the helper of the same package, whose source is
in another file. -/
def projectMemberFromDBX (bytesToUUID : Bytes → Except Err UUID)
    (projectMember : Option DbxProjectMember) : Except Err ProjectMember :=
  match projectMember with
  | none => Except.error "projectMember parameter is nil"
  | some projectMember =>
    match bytesToUUID projectMember.Id with
    | Except.error err => Except.error err
    | Except.ok id =>
      match bytesToUUID projectMember.MemberId with
      | Except.error err => Except.error err
      | Except.ok memberID =>
        match bytesToUUID projectMember.ProjectId with
        | Except.error err => Except.error err
        | Except.ok projectID =>
          Except.ok
            { ID := id
              MemberID := memberID
              ProjectID := projectID
              CreatedAt := projectMember.CreatedAt }

/-- The loop of lines 133-141 over the rest of the input, from the current
values of the variables `projectMembers` and `errors`. -/
def projectMembersLoop (bytesToUUID : Bytes → Except Err UUID) :
    List (Option DbxProjectMember) → List ProjectMember × List Err →
      List ProjectMember × List Err
  | [], state => state
  | projectMemberDbx :: rest, (projectMembers, errors) =>
    match projectMemberFromDBX bytesToUUID projectMemberDbx with
    | Except.error err => projectMembersLoop bytesToUUID rest (projectMembers, errors ++ [err])
    | Except.ok projectMember =>
      projectMembersLoop bytesToUUID rest (projectMembers ++ [projectMember], errors)

/-- The function `projectMembersFromDbxSlice`; `CombineErrors` stands for
`utils.CombineErrors`, whose source is in another package. -/
def projectMembersFromDbxSlice (CombineErrors : List Err → Option Err)
    (bytesToUUID : Bytes → Except Err UUID)
    (projectMembersDbx : List (Option DbxProjectMember)) :
    List ProjectMember × Option Err :=
  let state := projectMembersLoop bytesToUUID projectMembersDbx ([], [])
  (state.1, CombineErrors state.2)

/-- The conversion of one entry when it succeeds. -/
def converted (bytesToUUID : Bytes → Except Err UUID)
    (projectMemberDbx : Option DbxProjectMember) : Option ProjectMember :=
  match projectMemberFromDBX bytesToUUID projectMemberDbx with
  | Except.error _ => none
  | Except.ok projectMember => some projectMember

/-- The error of the conversion of one entry when it fails. -/
def conversionError (bytesToUUID : Bytes → Except Err UUID)
    (projectMemberDbx : Option DbxProjectMember) : Option Err :=
  match projectMemberFromDBX bytesToUUID projectMemberDbx with
  | Except.error err => some err
  | Except.ok _ => none

/-- A `bytesToUUID` result is a failure. -/
def failed (r : Except Err UUID) : Prop := ∃ err, r = Except.error err

end Satellitedb

/-! ## Concrete configurations and worlds -/

namespace Captplanet

/-- An identity configuration listening on `address`. -/
def identityOn (address : String) : IdentityConfig :=
  ⟨⟨address, ""⟩, ""⟩

/-- A fleet configuration: the satellite on port 7778 with both satellite
addresses left empty, ten storage nodes on ports 7780 to 7789, the uplink on
port 7777. -/
def fleet : RunCfg where
  Satellite :=
    { Identity := identityOn "127.0.0.1:7778"
      Kademlia := "", PointerDB := "", Overlay := "", Inspector := "", Checker := ""
      Repairer := "", Audit := ⟨"", ""⟩, BwAgreement := "", Web := ⟨"", ""⟩
      Database := "sqlite3://master.db", Discovery := "", Tally := "", Rollup := "" }
  StorageNodes :=
    ⟨["127.0.0.1:7780", "127.0.0.1:7781", "127.0.0.1:7782", "127.0.0.1:7783",
      "127.0.0.1:7784", "127.0.0.1:7785", "127.0.0.1:7786", "127.0.0.1:7787",
      "127.0.0.1:7788", "127.0.0.1:7789"].map fun a => ⟨identityOn a, "", ""⟩, rfl⟩
  Uplink := ⟨identityOn "127.0.0.1:7777", ⟨"access", "secret", ""⟩, ""⟩

/-- The fleet configuration with both satellite addresses set. -/
def fleetWithAddrs : RunCfg :=
  { fleet with
    Satellite := { fleet.Satellite with
      Audit := ⟨"127.0.0.1:9999", ""⟩, Web := ⟨"127.0.0.1:9998", ""⟩ } }

/-- A world in which everything starts and every role keeps running. -/
def healthy : World where
  StartAddr := none
  New := fun _ => none
  CreateTables := none
  satelliteRun := RunOutcome.blocks
  Load := fun i => Except.ok ("node" ++ toString i)
  storagenodeRun := fun _ => RunOutcome.blocks
  uplinkRun := RunOutcome.blocks
  satelliteDelay := 0
  storagenodeDelay := fun _ => 0
  uplinkDelay := 0

/-- The healthy world, except that port 6378 is taken and the uplink's `Run`
returns an error 40 ms into error collection. -/
def cacheDown : World :=
  { healthy with
    StartAddr := some "listen tcp :6378: bind: address already in use"
    uplinkRun := RunOutcome.returns (some "redis: connection refused")
    uplinkDelay := 40 }

/-- The healthy world, except that the satellite's database cannot be opened
and the `Run` of storage node 0 returns an error 30 ms into error collection. -/
def satelliteDown : World :=
  { healthy with
    New := fun _ => some "unable to open database file"
    storagenodeRun := fun i =>
      if i = 0 then RunOutcome.returns (some "satellite unreachable") else RunOutcome.blocks
    storagenodeDelay := fun _ => 30 }

/-- The healthy world, except that the identity of storage node 0 cannot be
loaded. -/
def identityMissing : World :=
  { healthy with
    Load := fun i =>
      if i = 0 then Except.error "open identity.cert: no such file or directory"
      else Except.ok ("node" ++ toString i) }

/-- A world in which the cache does not start and every role's `Run` returns
an error. -/
def allFail : World :=
  { healthy with
    StartAddr := some "listen tcp :6378: bind: address already in use"
    satelliteRun := RunOutcome.returns (some "satellite: bind failed")
    storagenodeRun := fun _ => RunOutcome.returns (some "storage node: bind failed")
    uplinkRun := RunOutcome.returns (some "uplink: bind failed") }

/-- The healthy world, except that the uplink's `Run` returns an error two
minutes into error collection. -/
def lateFailure : World :=
  { healthy with
    uplinkRun := RunOutcome.returns (some "uplink: connection reset")
    uplinkDelay := 120000 }

end Captplanet

/-! ## Vocabulary of the statements -/

namespace Captplanet

/-- The actions the ordering of a run is about: the cache start attempt, the
launches of the roles, and the start of error collection. -/
def Action.isMilestone : Action → Bool
  | Action.StartAddr _ => true
  | Action.goSatellite => true
  | Action.goStorageNode _ _ => true
  | Action.goUplink => true
  | Action.CollectErrors _ => true
  | _ => false

/-- The launches of the storage nodes that `cmdRun` is to perform for a
configuration: entry `i` of `runCfg.StorageNodes` with index `i`. -/
def storagenodeLaunches (runCfg : RunCfg) : List Action :=
  runCfg.StorageNodes.toList.enum.map fun p => Action.goStorageNode p.1 p.2

/-- The records of a run sent by a given role. -/
def Run.sentBy (r : Run) (role : Role) : List Record :=
  r.sent.filter fun x => x.role = role

/-- The satellite fails before it is ready: opening the database fails, or
creating the tables fails, or its `Run` returns an error. -/
def satelliteFails (w : World) (runCfg : RunCfg) : Prop :=
  w.New runCfg.Satellite.Database ≠ none ∨ w.CreateTables ≠ none ∨
    ∃ err, w.satelliteRun = RunOutcome.returns (some err)

end Captplanet

/-! ## Theorems -/

namespace Satellitedb

theorem projectMembersLoop_eq (b : Bytes → Except Err UUID) (xs : List (Option DbxProjectMember)) :
    ∀ st : List ProjectMember × List Err,
      projectMembersLoop b xs st =
        (st.1 ++ xs.filterMap (converted b), st.2 ++ xs.filterMap (conversionError b)) := by
  induction xs with
  | nil => intro st; simp [projectMembersLoop]
  | cons x xs ih =>
    rintro ⟨pms, errs⟩
    cases h : projectMemberFromDBX b x with
    | error e =>
      simp [projectMembersLoop, h, ih, converted, conversionError, List.filterMap_cons]
    | ok pm =>
      simp [projectMembersLoop, h, ih, converted, conversionError, List.filterMap_cons]

theorem filterMap_lengths (b : Bytes → Except Err UUID) (xs : List (Option DbxProjectMember)) :
    (xs.filterMap (converted b)).length + (xs.filterMap (conversionError b)).length
      = xs.length := by
  induction xs with
  | nil => rfl
  | cons x xs ih =>
    cases h : projectMemberFromDBX b x <;>
      simp [List.filterMap_cons, converted, conversionError, h] <;> omega

end Satellitedb

namespace Satellitedb

theorem projectMemberFromDBX_error_iff (b : Bytes → Except Err UUID)
    (x : Option DbxProjectMember) :
    (∃ err, projectMemberFromDBX b x = Except.error err) ↔
      (x = none ∨ ∃ pm, x = some pm ∧
        (failed (b pm.Id) ∨ failed (b pm.MemberId) ∨ failed (b pm.ProjectId))) := by
  cases x with
  | none => simp [projectMemberFromDBX]
  | some pm =>
    cases h1 : b pm.Id <;> cases h2 : b pm.MemberId <;> cases h3 : b pm.ProjectId <;>
      simp [projectMemberFromDBX, failed, h1, h2, h3]

theorem projectMemberFromDBX_ok (b : Bytes → Except Err UUID) (pm : DbxProjectMember)
    (r : ProjectMember) (h : projectMemberFromDBX b (some pm) = Except.ok r) :
    b pm.Id = Except.ok r.ID ∧ b pm.MemberId = Except.ok r.MemberID ∧
      b pm.ProjectId = Except.ok r.ProjectID ∧ r.CreatedAt = pm.CreatedAt := by
  cases h1 : b pm.Id <;> cases h2 : b pm.MemberId <;> cases h3 : b pm.ProjectId <;>
    simp [projectMemberFromDBX, h1, h2, h3] at h
  subst h
  simp

/-- C10: `projectMembersFromDbxSlice` returns, in input order, exactly the
conversions of the entries on which `projectMemberFromDBX` succeeds, and
collects one error for each other entry (the collected errors are what is handed
to `CombineErrors`), so members plus errors count the input; the conversion of
one entry fails exactly when the entry is nil or `bytesToUUID` fails on its
`Id`, `MemberId` or `ProjectId`, and a successful conversion carries the three
converted ids and the entry's `CreatedAt`. -/
theorem projectMembersFromDbxSlice_spec (CombineErrors : List Err → Option Err)
    (bytesToUUID : Bytes → Except Err UUID) (xs : List (Option DbxProjectMember)) :
    (projectMembersFromDbxSlice CombineErrors bytesToUUID xs).1
        = xs.filterMap (converted bytesToUUID) ∧
      (projectMembersLoop bytesToUUID xs ([], [])).2
        = xs.filterMap (conversionError bytesToUUID) ∧
      (projectMembersFromDbxSlice CombineErrors bytesToUUID xs).2
        = CombineErrors (projectMembersLoop bytesToUUID xs ([], [])).2 ∧
      (projectMembersFromDbxSlice CombineErrors bytesToUUID xs).1.length
        + (projectMembersLoop bytesToUUID xs ([], [])).2.length = xs.length ∧
      (∀ x : Option DbxProjectMember,
        (∃ err, projectMemberFromDBX bytesToUUID x = Except.error err) ↔
          (x = none ∨ ∃ pm, x = some pm ∧
            (failed (bytesToUUID pm.Id) ∨ failed (bytesToUUID pm.MemberId) ∨
              failed (bytesToUUID pm.ProjectId)))) ∧
      (∀ (x : Option DbxProjectMember) (r : ProjectMember),
        projectMemberFromDBX bytesToUUID x = Except.ok r →
          ∃ pm, x = some pm ∧ bytesToUUID pm.Id = Except.ok r.ID ∧
            bytesToUUID pm.MemberId = Except.ok r.MemberID ∧
            bytesToUUID pm.ProjectId = Except.ok r.ProjectID ∧
            r.CreatedAt = pm.CreatedAt) := by
  refine ⟨?_, ?_, ?_, ?_, ?_, ?_⟩
  · simp [projectMembersFromDbxSlice, projectMembersLoop_eq]
  · simp [projectMembersLoop_eq]
  · simp [projectMembersFromDbxSlice]
  · simp only [projectMembersFromDbxSlice, projectMembersLoop_eq, List.nil_append]
    exact filterMap_lengths bytesToUUID xs
  · exact projectMemberFromDBX_error_iff bytesToUUID
  · intro x r h
    cases x with
    | none => simp [projectMemberFromDBX] at h
    | some pm => exact ⟨pm, rfl, projectMemberFromDBX_ok bytesToUUID pm r h⟩

end Satellitedb

namespace Captplanet

/-- C9: the satellite's address defaulting is a fill-if-empty.  Afterwards
`Audit.SatelliteAddr` is its previous value when that was non-empty and
`Identity.Server.Address` otherwise, and independently so for
`Web.SatelliteAddr`; `Identity` (with `Server.Address`) and every other field of
the configuration are unchanged; and doing the step twice gives what doing it
once gives. -/
theorem defaultSatelliteAddrs_fill_if_empty (runCfg : RunCfg) :
    (defaultSatelliteAddrs runCfg).Satellite.Audit.SatelliteAddr
        = (if runCfg.Satellite.Audit.SatelliteAddr = ""
            then runCfg.Satellite.Identity.Server.Address
            else runCfg.Satellite.Audit.SatelliteAddr) ∧
      (defaultSatelliteAddrs runCfg).Satellite.Web.SatelliteAddr
        = (if runCfg.Satellite.Web.SatelliteAddr = ""
            then runCfg.Satellite.Identity.Server.Address
            else runCfg.Satellite.Web.SatelliteAddr) ∧
      (defaultSatelliteAddrs runCfg).Satellite.Identity = runCfg.Satellite.Identity ∧
      (defaultSatelliteAddrs runCfg).Satellite.Kademlia = runCfg.Satellite.Kademlia ∧
      (defaultSatelliteAddrs runCfg).Satellite.PointerDB = runCfg.Satellite.PointerDB ∧
      (defaultSatelliteAddrs runCfg).Satellite.Overlay = runCfg.Satellite.Overlay ∧
      (defaultSatelliteAddrs runCfg).Satellite.Inspector = runCfg.Satellite.Inspector ∧
      (defaultSatelliteAddrs runCfg).Satellite.Checker = runCfg.Satellite.Checker ∧
      (defaultSatelliteAddrs runCfg).Satellite.Repairer = runCfg.Satellite.Repairer ∧
      (defaultSatelliteAddrs runCfg).Satellite.Audit.rest = runCfg.Satellite.Audit.rest ∧
      (defaultSatelliteAddrs runCfg).Satellite.BwAgreement = runCfg.Satellite.BwAgreement ∧
      (defaultSatelliteAddrs runCfg).Satellite.Web.rest = runCfg.Satellite.Web.rest ∧
      (defaultSatelliteAddrs runCfg).Satellite.Database = runCfg.Satellite.Database ∧
      (defaultSatelliteAddrs runCfg).Satellite.Discovery = runCfg.Satellite.Discovery ∧
      (defaultSatelliteAddrs runCfg).Satellite.Tally = runCfg.Satellite.Tally ∧
      (defaultSatelliteAddrs runCfg).Satellite.Rollup = runCfg.Satellite.Rollup ∧
      (defaultSatelliteAddrs runCfg).StorageNodes = runCfg.StorageNodes ∧
      (defaultSatelliteAddrs runCfg).Uplink = runCfg.Uplink ∧
      defaultSatelliteAddrs (defaultSatelliteAddrs runCfg) = defaultSatelliteAddrs runCfg := by
  by_cases ha : runCfg.Satellite.Audit.SatelliteAddr = "" <;>
    by_cases hw : runCfg.Satellite.Web.SatelliteAddr = "" <;>
    by_cases hs : runCfg.Satellite.Identity.Server.Address = "" <;>
    simp [defaultSatelliteAddrs, defaultAuditAddr, defaultWebAddr, ha, hw, hs]

end Captplanet

namespace Captplanet

/-! ### The goroutines: what they send -/

theorem satelliteGoroutine_runCfg (w : World) (runCfg : RunCfg) :
    (satelliteGoroutine w runCfg).1 = defaultSatelliteAddrs runCfg := by
  unfold satelliteGoroutine
  simp only
  split
  · rfl
  · split
    · rfl
    · split <;> rfl

theorem defaultSatelliteAddrs_Database (runCfg : RunCfg) :
    (defaultSatelliteAddrs runCfg).Satellite.Database = runCfg.Satellite.Database := by
  by_cases ha : runCfg.Satellite.Audit.SatelliteAddr = "" <;>
    by_cases hw : runCfg.Satellite.Web.SatelliteAddr = "" <;>
    simp [defaultSatelliteAddrs, defaultAuditAddr, defaultWebAddr, ha, hw]

theorem satelliteGoroutine_sent (w : World) (runCfg : RunCfg) :
    (satelliteGoroutine w runCfg).2.sent.length ≤ 1 ∧
      ∀ x ∈ (satelliteGoroutine w runCfg).2.sent, x.role = Role.satellite := by
  unfold satelliteGoroutine
  simp only
  split
  · simp
  · split
    · simp
    · split <;> simp

theorem storagenodeGoroutine_sent (w : World) (i : Nat) (v : StorageNode) :
    (storagenodeGoroutine w i v).sent.length ≤ 1 ∧
      ∀ x ∈ (storagenodeGoroutine w i v).sent, x.role = Role.storagenode i := by
  unfold storagenodeGoroutine
  split
  · simp
  · simp only
    split <;> simp

theorem uplinkGoroutine_sent (w : World) (cfg : UplinkConfig) :
    (uplinkGoroutine w cfg).sent.length ≤ 1 ∧
      ∀ x ∈ (uplinkGoroutine w cfg).sent, x.role = Role.uplink := by
  unfold uplinkGoroutine
  simp only
  split <;> simp

/-! ### The loop over the storage nodes -/

theorem startStorageNodes_actions (w : World) (vs : List StorageNode) :
    ∀ i, (startStorageNodes w i vs).map Prod.fst
      = (vs.enumFrom i).map fun p => Action.goStorageNode p.1 p.2 := by
  induction vs with
  | nil => intro i; rfl
  | cons v vs ih => intro i; simp [startStorageNodes, List.enumFrom, ih]

theorem startStorageNodes_sent_length (w : World) (vs : List StorageNode) :
    ∀ i, ((startStorageNodes w i vs).map fun n => n.2.sent).flatten.length ≤ vs.length := by
  induction vs with
  | nil => intro i; simp [startStorageNodes]
  | cons v vs ih =>
    intro i
    have h1 := (storagenodeGoroutine_sent w i v).1
    have h2 := ih (i + 1)
    simp only [startStorageNodes, List.map_cons, List.flatten_cons, List.length_append,
      List.length_cons]
    omega

theorem startStorageNodes_sent_role (w : World) (vs : List StorageNode) :
    ∀ i, ∀ x ∈ ((startStorageNodes w i vs).map fun n => n.2.sent).flatten,
      ∃ j, i ≤ j ∧ j < i + vs.length ∧ x.role = Role.storagenode j := by
  induction vs with
  | nil => intro i x hx; simp [startStorageNodes] at hx
  | cons v vs ih =>
    intro i x hx
    simp only [startStorageNodes, List.map_cons, List.flatten_cons, List.mem_append] at hx
    rcases hx with hx | hx
    · exact ⟨i, le_refl _, by simp, (storagenodeGoroutine_sent w i v).2 x hx⟩
    · obtain ⟨j, h1, h2, h3⟩ := ih (i + 1) x hx
      exact ⟨j, by omega, by simp only [List.length_cons]; omega, h3⟩

theorem startStorageNodes_sentBy (w : World) (vs : List StorageNode) (role : Role) :
    ∀ i, ((((startStorageNodes w i vs).map fun n => n.2.sent).flatten).filter
      fun x => x.role = role).length ≤ 1 := by
  induction vs with
  | nil => intro i; simp [startStorageNodes]
  | cons v vs ih =>
    intro i
    simp only [startStorageNodes, List.map_cons, List.flatten_cons, List.filter_append,
      List.length_append]
    by_cases hr : role = Role.storagenode i
    · have hrest : (((startStorageNodes w (i + 1) vs).map fun n => n.2.sent).flatten).filter
          (fun x => x.role = role) = [] := by
        rw [List.filter_eq_nil_iff]
        intro x hx
        obtain ⟨j, h1, _, h3⟩ := startStorageNodes_sent_role w vs (i + 1) x hx
        simp only [decide_eq_true_eq]
        rw [h3, hr]
        intro h
        injection h with h
        omega
      rw [hrest]
      have := (storagenodeGoroutine_sent w i v).1
      have := List.length_filter_le (fun x => decide (x.role = role)) (storagenodeGoroutine w i v).sent
      simp only [List.length_nil]
      omega
    · have hfirst : (storagenodeGoroutine w i v).sent.filter (fun x => x.role = role) = [] := by
        rw [List.filter_eq_nil_iff]
        intro x hx
        simp only [decide_eq_true_eq]
        rw [(storagenodeGoroutine_sent w i v).2 x hx]
        exact fun h => hr h.symm
      rw [hfirst]
      simpa using ih (i + 1)

end Captplanet

namespace Captplanet

/-! ### The parts of a run -/

/-- What the goroutines of a run send, in the order satellite, storage nodes,
uplink. -/
theorem cmdRun_sent (c : Collector) (w : World) (runCfg : RunCfg) :
    (cmdRun c w runCfg).sent =
      (match w.StartAddr with
        | some err => [(⟨Role.cache, 0, some err⟩ : Record)]
        | none => []) ++
      ((satelliteGoroutine w runCfg).2.sent ++
        (((startStorageNodes w 0 runCfg.StorageNodes.toList).map fun n => n.2.sent).flatten ++
          (uplinkGoroutine w runCfg.Uplink).sent)) := by
  cases h : w.StartAddr <;> simp [cmdRun, h]

theorem cmdRun_roles_sent_length (w : World) (runCfg : RunCfg) :
    ((satelliteGoroutine w runCfg).2.sent ++
      (((startStorageNodes w 0 runCfg.StorageNodes.toList).map fun n => n.2.sent).flatten ++
        (uplinkGoroutine w runCfg.Uplink).sent)).length ≤ storagenodeCount + 2 := by
  have h1 := (satelliteGoroutine_sent w runCfg).1
  have h2 := startStorageNodes_sent_length w runCfg.StorageNodes.toList 0
  have h3 := (uplinkGoroutine_sent w runCfg.Uplink).1
  have h4 := runCfg.StorageNodes.size_eq
  simp only [List.length_append]
  omega

theorem cmdRun_roles_sent_role (w : World) (runCfg : RunCfg) :
    ∀ x ∈ ((satelliteGoroutine w runCfg).2.sent ++
      (((startStorageNodes w 0 runCfg.StorageNodes.toList).map fun n => n.2.sent).flatten ++
        (uplinkGoroutine w runCfg.Uplink).sent)), x.role ≠ Role.cache := by
  intro x hx
  simp only [List.mem_append] at hx
  rcases hx with hx | hx | hx
  · rw [(satelliteGoroutine_sent w runCfg).2 x hx]; simp
  · obtain ⟨j, _, _, h⟩ := startStorageNodes_sent_role w _ 0 x hx
    rw [h]; simp
  · rw [(uplinkGoroutine_sent w runCfg.Uplink).2 x hx]; simp

/-- The actions of `cmdRun` up to and including the call of `CollectErrors`. -/
theorem cmdRun_actions (c : Collector) (w : World) (runCfg : RunCfg) :
    ∃ step tail,
      (cmdRun c w runCfg).actions =
        [Action.monTask, Action.makeChan (storagenodeCount + 2), Action.NewMiniRedis,
          Action.RequireAuth "abc123", Action.StartAddr ":6378", step,
          Action.goSatellite, Action.Sleep 2000] ++
        (storagenodeLaunches runCfg ++ ([Action.goUplink, Action.CollectErrors 5000] ++ tail)) ∧
      (step = Action.deferClose ∨ ∃ err, step = Action.send err) ∧
      (tail = [] ∨ tail = [Action.monTaskFinish] ∨ tail = [Action.Close, Action.monTaskFinish]) ∧
      (tail = [Action.Close, Action.monTaskFinish] ↔
        (w.StartAddr = none ∧ (cmdRun c w runCfg).ret ≠ none)) := by
  have hlen := runCfg.StorageNodes.size_eq
  simp only [cmdRun, startStorageNodes_actions, storagenodeLaunches, List.enum, hlen]
  generalize c _ 5000 = ret
  rcases ret with _ | v <;> rcases w.StartAddr with _ | e
  · exact ⟨Action.deferClose, [], by simp, Or.inl rfl, Or.inl rfl, by simp⟩
  · exact ⟨Action.send e, [], by simp, Or.inr ⟨e, rfl⟩, Or.inl rfl, by simp⟩
  · exact ⟨Action.deferClose, [Action.Close, Action.monTaskFinish], by simp, Or.inl rfl,
      Or.inr (Or.inr rfl), by simp⟩
  · exact ⟨Action.send e, [Action.monTaskFinish], by simp, Or.inr ⟨e, rfl⟩,
      Or.inr (Or.inl rfl), by simp⟩

theorem storagenodeLaunches_filter (runCfg : RunCfg) (p : Action → Bool)
    (hp : ∀ i v, p (Action.goStorageNode i v) = true) :
    (storagenodeLaunches runCfg).filter p = storagenodeLaunches runCfg := by
  rw [List.filter_eq_self]
  intro a ha
  simp only [storagenodeLaunches, List.mem_map] at ha
  obtain ⟨q, _, rfl⟩ := ha
  exact hp _ _

theorem storagenodeLaunches_not_mem (runCfg : RunCfg) (a : Action)
    (ha : ∀ i v, a ≠ Action.goStorageNode i v) : a ∉ storagenodeLaunches runCfg := by
  intro h
  simp only [storagenodeLaunches, List.mem_map] at h
  obtain ⟨q, _, rfl⟩ := h
  exact ha _ _ rfl

end Captplanet

namespace Captplanet

theorem storagenodeLaunches_length (runCfg : RunCfg) :
    (storagenodeLaunches runCfg).length = storagenodeCount := by
  simp [storagenodeLaunches, List.enum, runCfg.StorageNodes.size_eq]

theorem storagenodeLaunches_getElem? (runCfg : RunCfg) (i : Nat) :
    (storagenodeLaunches runCfg)[i]?
      = (runCfg.StorageNodes.toList[i]?).map (Action.goStorageNode i) := by
  simp only [storagenodeLaunches, List.enum, List.getElem?_map, List.getElem?_enumFrom]
  cases runCfg.StorageNodes.toList[i]? <;> simp

/-- C6: the actions of `cmdRun` have a fixed order and topology, whatever the
world does.  Of the cache start attempt, the launches and the start of error
collection, a run performs exactly: the call of `StartAddr`, then the launch
of the satellite, then the launches of the storage nodes, then the launch of
the uplink, then the call of `CollectErrors`, each once.  There are exactly
`storagenodeCount` storage node launches, and the `i`-th one is for index `i`
with entry `i` of `runCfg.StorageNodes`. -/
theorem cmdRun_order (c : Collector) (w : World) (runCfg : RunCfg) :
    (cmdRun c w runCfg).actions.filter Action.isMilestone =
        [Action.StartAddr ":6378", Action.goSatellite] ++ storagenodeLaunches runCfg ++
          [Action.goUplink, Action.CollectErrors 5000] ∧
      (storagenodeLaunches runCfg).length = storagenodeCount ∧
      storagenodeCount = 10 ∧
      ∀ i, (storagenodeLaunches runCfg)[i]?
        = (runCfg.StorageNodes.toList[i]?).map (Action.goStorageNode i) := by
  refine ⟨?_, storagenodeLaunches_length runCfg, rfl, storagenodeLaunches_getElem? runCfg⟩
  obtain ⟨step, tail, hacts, hstep, htail, _⟩ := cmdRun_actions c w runCfg
  rw [hacts]
  have hl := storagenodeLaunches_filter runCfg Action.isMilestone (fun _ _ => rfl)
  rcases hstep with rfl | ⟨e, rfl⟩ <;> rcases htail with rfl | rfl | rfl <;>
    simp [List.filter_append, List.filter_cons, hl, Action.isMilestone]

/-- C8: when `StartAddr` succeeded and `cmdRun` returns, whatever it returns,
`Close` is called exactly once, right after `CollectErrors` has returned and
as the first of the deferred calls; when `StartAddr` failed, `Close` is never
called. -/
theorem cmdRun_close (c : Collector) (w : World) (runCfg : RunCfg) :
    (∀ v, w.StartAddr = none → (cmdRun c w runCfg).ret = some v →
      (cmdRun c w runCfg).actions.count Action.Close = 1 ∧
      ∃ body, (cmdRun c w runCfg).actions = body ++ [Action.Close, Action.monTaskFinish] ∧
        body.getLast? = some (Action.CollectErrors 5000)) ∧
      (∀ err, w.StartAddr = some err → (cmdRun c w runCfg).actions.count Action.Close = 0) := by
  obtain ⟨step, tail, hacts, hstep, htail, hiff⟩ := cmdRun_actions c w runCfg
  have hl : (storagenodeLaunches runCfg).count Action.Close = 0 :=
    List.count_eq_zero.mpr (storagenodeLaunches_not_mem runCfg _ (fun _ _ h => by cases h))
  have hstepc : [step].count Action.Close = 0 := by
    rcases hstep with rfl | ⟨e, rfl⟩ <;> simp
  constructor
  · intro v hw hv
    have ht : tail = [Action.Close, Action.monTaskFinish] := hiff.mpr ⟨hw, by simp [hv]⟩
    subst ht
    constructor
    · rw [hacts]
      simp only [List.count_append, List.count_cons, List.count_nil, hl] at hstepc ⊢
      simp at hstepc ⊢
      simpa using hstepc
    · refine ⟨[Action.monTask, Action.makeChan (storagenodeCount + 2), Action.NewMiniRedis,
          Action.RequireAuth "abc123", Action.StartAddr ":6378", step,
          Action.goSatellite, Action.Sleep 2000] ++
        (storagenodeLaunches runCfg ++ [Action.goUplink, Action.CollectErrors 5000]), ?_, ?_⟩
      · rw [hacts]; simp
      · rw [← List.append_assoc, List.getLast?_append]
        rfl
  · intro err hw
    have ht : tail ≠ [Action.Close, Action.monTaskFinish] := by
      intro h
      have := (hiff.mp h).1
      rw [hw] at this
      cases this
    rw [hacts]
    rcases htail with rfl | rfl | rfl
    · simp only [List.count_append, List.count_cons, List.count_nil, hl] at hstepc ⊢
      simp at hstepc ⊢
      simpa using hstepc
    · simp only [List.count_append, List.count_cons, List.count_nil, hl] at hstepc ⊢
      simp at hstepc ⊢
      simpa using hstepc
    · exact absurd rfl ht

end Captplanet

namespace Captplanet

/-! ### Launches happen in every run -/

theorem cmdRun_launches (c : Collector) (w : World) (runCfg : RunCfg) :
    Action.goSatellite ∈ (cmdRun c w runCfg).actions ∧
      (∀ a ∈ storagenodeLaunches runCfg, a ∈ (cmdRun c w runCfg).actions) ∧
      Action.goUplink ∈ (cmdRun c w runCfg).actions := by
  obtain ⟨step, tail, hacts, -, -, -⟩ := cmdRun_actions c w runCfg
  rw [hacts]
  refine ⟨by simp, ?_, by simp⟩
  intro a ha
  simp [ha]

theorem filter_role_eq_nil (l : List Record) (role : Role)
    (h : ∀ x ∈ l, x.role ≠ role) : l.filter (fun x => x.role = role) = [] := by
  rw [List.filter_eq_nil_iff]
  intro x hx
  simpa using h x hx

theorem satelliteGoroutine_sent_of_fails (w : World) (runCfg : RunCfg)
    (h : satelliteFails w runCfg) :
    ∃ err, (satelliteGoroutine w runCfg).2.sent
      = [⟨Role.satellite, w.satelliteDelay, some err⟩] := by
  unfold satelliteFails at h
  unfold satelliteGoroutine
  simp only [defaultSatelliteAddrs_Database]
  cases hn : w.New runCfg.Satellite.Database with
  | some e => exact ⟨_, rfl⟩
  | none =>
    cases ht : w.CreateTables with
    | some e => exact ⟨_, rfl⟩
    | none =>
      rcases h with h | h | ⟨e, h⟩
      · exact absurd hn h
      · exact absurd ht h
      · exact ⟨e, by simp [h]⟩

/-- C1, as the code has it: when starting the cache fails, `cmdRun` itself
sends that error on `errch`, the one record of the cache and the first one
sent, and carries on: the satellite, every storage node and the uplink are
launched all the same, and each of them may send a record of its own, so
that between one and `storagenodeCount + 3` records are sent. -/
theorem cmdRun_cache_failure (c : Collector) (w : World) (runCfg : RunCfg) (err : Err)
    (h : w.StartAddr = some err) :
    (cmdRun c w runCfg).sentBy Role.cache = [⟨Role.cache, 0, some err⟩] ∧
      (cmdRun c w runCfg).sent.head? = some ⟨Role.cache, 0, some err⟩ ∧
      Action.goSatellite ∈ (cmdRun c w runCfg).actions ∧
      (∀ a ∈ storagenodeLaunches runCfg, a ∈ (cmdRun c w runCfg).actions) ∧
      Action.goUplink ∈ (cmdRun c w runCfg).actions ∧
      1 ≤ (cmdRun c w runCfg).sent.length ∧
      (cmdRun c w runCfg).sent.length ≤ storagenodeCount + 3 := by
  have hs := cmdRun_sent c w runCfg
  rw [h] at hs
  have hroles := filter_role_eq_nil _ Role.cache (cmdRun_roles_sent_role w runCfg)
  have hlen := cmdRun_roles_sent_length w runCfg
  obtain ⟨h1, h2, h3⟩ := cmdRun_launches c w runCfg
  refine ⟨?_, ?_, h1, h2, h3, ?_, ?_⟩
  · rw [Run.sentBy, hs]
    simp only [List.singleton_append, List.filter_cons, decide_True, if_true, hroles]
  · rw [hs]; rfl
  · rw [hs]; simp
  · rw [hs]
    simp only [List.singleton_append, List.length_cons]
    omega

/-- Witness of `cmdRun_cache_failure`: port 6378 is taken, the uplink fails a
little later; two records are sent and every role was launched. -/
theorem cmdRun_cache_failure_witness :
    (cmdRun CollectErrors cacheDown fleet).sentBy Role.cache
        = [⟨Role.cache, 0, some "listen tcp :6378: bind: address already in use"⟩] ∧
      (cmdRun CollectErrors cacheDown fleet).sent.head?
        = some ⟨Role.cache, 0, some "listen tcp :6378: bind: address already in use"⟩ ∧
      Action.goSatellite ∈ (cmdRun CollectErrors cacheDown fleet).actions ∧
      (∀ a ∈ storagenodeLaunches fleet, a ∈ (cmdRun CollectErrors cacheDown fleet).actions) ∧
      Action.goUplink ∈ (cmdRun CollectErrors cacheDown fleet).actions ∧
      1 ≤ (cmdRun CollectErrors cacheDown fleet).sent.length ∧
      (cmdRun CollectErrors cacheDown fleet).sent.length ≤ storagenodeCount + 3 :=
  cmdRun_cache_failure CollectErrors cacheDown fleet _ rfl

/-- C1 fails as stated: with port 6378 taken, the satellite, the ten storage
nodes and the uplink are launched all the same, the satellite's `Run` is
called, and two records are sent, not one. -/
theorem cache_failure_roles_still_started :
    cacheDown.StartAddr = some "listen tcp :6378: bind: address already in use" ∧
      Action.goSatellite ∈ (cmdRun CollectErrors cacheDown fleet).actions ∧
      (∀ a ∈ storagenodeLaunches fleet, a ∈ (cmdRun CollectErrors cacheDown fleet).actions) ∧
      (storagenodeLaunches fleet).length = 10 ∧
      Action.goUplink ∈ (cmdRun CollectErrors cacheDown fleet).actions ∧
      RoleEvent.satelliteRun (defaultSatelliteAddrs fleet).Satellite
        ∈ (cmdRun CollectErrors cacheDown fleet).events ∧
      RoleEvent.uplinkRun fleet.Uplink ∈ (cmdRun CollectErrors cacheDown fleet).events ∧
      (cmdRun CollectErrors cacheDown fleet).sent.length = 2 := by
  decide

/-- The extent of the missing gate between the satellite and its dependents:
in every run in which the satellite fails before it is ready, it sends exactly
one failure record on `errch`, and the launches of the storage nodes and of
the uplink are performed nevertheless, the pause of line 150 not looking at
the satellite's outcome. -/
theorem cmdRun_satellite_failure (c : Collector) (w : World) (runCfg : RunCfg)
    (h : satelliteFails w runCfg) :
    (∃ err, (cmdRun c w runCfg).sentBy Role.satellite
        = [⟨Role.satellite, w.satelliteDelay, some err⟩]) ∧
      (∀ a ∈ storagenodeLaunches runCfg, a ∈ (cmdRun c w runCfg).actions) ∧
      Action.goUplink ∈ (cmdRun c w runCfg).actions := by
  obtain ⟨_, h2, h3⟩ := cmdRun_launches c w runCfg
  refine ⟨?_, h2, h3⟩
  obtain ⟨e, he⟩ := satelliteGoroutine_sent_of_fails w runCfg h
  refine ⟨e, ?_⟩
  have hnodes := filter_role_eq_nil
    (((startStorageNodes w 0 runCfg.StorageNodes.toList).map fun n => n.2.sent).flatten)
    Role.satellite (by
      intro x hx
      obtain ⟨j, _, _, hj⟩ := startStorageNodes_sent_role w _ 0 x hx
      rw [hj]; simp)
  have hup := filter_role_eq_nil (uplinkGoroutine w runCfg.Uplink).sent Role.satellite (by
      intro x hx
      rw [(uplinkGoroutine_sent w runCfg.Uplink).2 x hx]; simp)
  rw [Run.sentBy, cmdRun_sent, he]
  simp only [List.filter_append, hnodes, hup, List.append_nil]
  cases w.StartAddr <;> simp

/-- Witness of `cmdRun_satellite_failure`: the database cannot be opened. -/
theorem cmdRun_satellite_failure_witness :
    (∃ err, (cmdRun CollectErrors satelliteDown fleet).sentBy Role.satellite
        = [⟨Role.satellite, satelliteDown.satelliteDelay, some err⟩]) ∧
      (∀ a ∈ storagenodeLaunches fleet,
        a ∈ (cmdRun CollectErrors satelliteDown fleet).actions) ∧
      Action.goUplink ∈ (cmdRun CollectErrors satelliteDown fleet).actions :=
  cmdRun_satellite_failure CollectErrors satelliteDown fleet (Or.inl (by decide))

/-- C2 at a failing input: the satellite's database cannot be opened, so the
satellite sends its failure record and its `Run` is never called.  The comment
of line 149 has the pause ensure that the satellite is up and running before
the storage nodes are started; yet the ten storage nodes and the uplink are
launched, the `Run` of storage node 0 and of the uplink are called, and the
error of storage node 0 is on the channel next to the satellite's. -/
theorem satellite_failure_roles_still_started :
    satelliteDown.New fleet.Satellite.Database = some "unable to open database file" ∧
      (cmdRun CollectErrors satelliteDown fleet).sentBy Role.satellite
        = [⟨Role.satellite, 0,
            some "Error starting master database on satellite: unable to open database file"⟩] ∧
      RoleEvent.satelliteRun (defaultSatelliteAddrs fleet).Satellite
        ∉ (cmdRun CollectErrors satelliteDown fleet).events ∧
      (∀ a ∈ storagenodeLaunches fleet,
        a ∈ (cmdRun CollectErrors satelliteDown fleet).actions) ∧
      (storagenodeLaunches fleet).length = 10 ∧
      Action.goUplink ∈ (cmdRun CollectErrors satelliteDown fleet).actions ∧
      RoleEvent.storagenodeRun 0 ⟨identityOn "127.0.0.1:7780", "", ""⟩
        ∈ (cmdRun CollectErrors satelliteDown fleet).events ∧
      RoleEvent.uplinkRun fleet.Uplink ∈ (cmdRun CollectErrors satelliteDown fleet).events ∧
      (cmdRun CollectErrors satelliteDown fleet).sentBy (Role.storagenode 0)
        = [⟨Role.storagenode 0, 30, some "satellite unreachable"⟩] ∧
      (cmdRun CollectErrors satelliteDown fleet).sent.length = 2 := by
  decide

end Captplanet

namespace Captplanet

/-- C3 at a failing input: the identity of storage node 0 cannot be loaded.
The node's goroutine was launched and called `Load`, its `Run` is never
called, and it sends nothing: the channel stays empty and `cmdRun`, collecting
as the specification words it, never returns. -/
theorem identity_load_failure_is_silent :
    identityMissing.Load 0 = Except.error "open identity.cert: no such file or directory" ∧
      Action.goStorageNode 0 ⟨identityOn "127.0.0.1:7780", "", ""⟩
        ∈ (cmdRun CollectErrors identityMissing fleet).actions ∧
      RoleEvent.Load 0 ∈ (cmdRun CollectErrors identityMissing fleet).events ∧
      RoleEvent.storagenodeRun 0 ⟨identityOn "127.0.0.1:7780", "", ""⟩
        ∉ (cmdRun CollectErrors identityMissing fleet).events ∧
      (cmdRun CollectErrors identityMissing fleet).sentBy (Role.storagenode 0) = [] ∧
      (cmdRun CollectErrors identityMissing fleet).sent = [] ∧
      (cmdRun CollectErrors identityMissing fleet).ret = none :=
  ⟨rfl, by decide, by decide, by decide, by decide, by decide, by decide⟩

theorem cmdRun_capacity (c : Collector) (w : World) (runCfg : RunCfg) :
    (cmdRun c w runCfg).capacity = storagenodeCount + 2 := by
  simp [cmdRun, runCfg.StorageNodes.size_eq]

theorem cmdRun_sentBy_le_one (c : Collector) (w : World) (runCfg : RunCfg) (role : Role) :
    ((cmdRun c w runCfg).sentBy role).length ≤ 1 := by
  have hsat := satelliteGoroutine_sent w runCfg
  have hup := uplinkGoroutine_sent w runCfg.Uplink
  have hnodes := startStorageNodes_sent_role w runCfg.StorageNodes.toList 0
  have hsatf := List.length_filter_le (fun x => decide (x.role = role))
    (satelliteGoroutine w runCfg).2.sent
  have hupf := List.length_filter_le (fun x => decide (x.role = role))
    (uplinkGoroutine w runCfg.Uplink).sent
  have hnodesf := startStorageNodes_sentBy w runCfg.StorageNodes.toList role 0
  have hcache : ((match w.StartAddr with
        | some err => [(⟨Role.cache, 0, some err⟩ : Record)]
        | none => []).filter fun x : Record => x.role = role).length
      = if role = Role.cache ∧ w.StartAddr ≠ none then 1 else 0 := by
    cases w.StartAddr with
    | none => simp
    | some e =>
      by_cases hr : role = Role.cache
      · simp [hr]
      · have hr' : ¬ Role.cache = role := fun h => hr h.symm
        simp [hr, hr', List.filter_cons]
  rw [Run.sentBy, cmdRun_sent]
  simp only [List.filter_append, List.length_append, hcache]
  by_cases hc : role = Role.cache
  · have e1 := filter_role_eq_nil _ role (fun x hx => by rw [hsat.2 x hx, hc]; simp)
    have e2 := filter_role_eq_nil _ role (fun x hx => by
      obtain ⟨j, _, _, hj⟩ := hnodes x hx
      rw [hj, hc]; simp)
    have e3 := filter_role_eq_nil _ role (fun x hx => by rw [hup.2 x hx, hc]; simp)
    rw [e1, e2, e3]
    split <;> simp
  · rw [if_neg (fun h => hc h.1)]
    by_cases hs : role = Role.satellite
    · have e2 := filter_role_eq_nil _ role (fun x hx => by
        obtain ⟨j, _, _, hj⟩ := hnodes x hx
        rw [hj, hs]; simp)
      have e3 := filter_role_eq_nil _ role (fun x hx => by rw [hup.2 x hx, hs]; simp)
      rw [e2, e3]
      simp only [List.length_nil]
      omega
    · have e1 := filter_role_eq_nil _ role (fun x hx => by
        rw [hsat.2 x hx]; exact fun h => hs h.symm)
      by_cases hu : role = Role.uplink
      · have e2 := filter_role_eq_nil _ role (fun x hx => by
          obtain ⟨j, _, _, hj⟩ := hnodes x hx
          rw [hj, hu]; simp)
        rw [e1, e2]
        simp only [List.length_nil]
        omega
      · have e3 := filter_role_eq_nil _ role (fun x hx => by
          rw [hup.2 x hx]; exact fun h => hu h.symm)
        rw [e1, e3]
        simp only [List.length_nil]
        omega

/-- C5, as the code has it: `errch` is made with capacity
`storagenodeCount + 2`, one place for each launched role; every producer (the
cache start failure, the satellite, each storage node, the uplink) sends at
most once; the launched roles together send at most the capacity; a run sends
at most one value more than the capacity, and at most the capacity when the
cache started. -/
theorem cmdRun_sent_bound (c : Collector) (w : World) (runCfg : RunCfg) :
    (cmdRun c w runCfg).capacity = storagenodeCount + 2 ∧
      (∀ role, ((cmdRun c w runCfg).sentBy role).length ≤ 1) ∧
      ((cmdRun c w runCfg).sent.filter fun x => x.role ≠ Role.cache).length
        ≤ (cmdRun c w runCfg).capacity ∧
      (cmdRun c w runCfg).sent.length ≤ (cmdRun c w runCfg).capacity + 1 ∧
      (w.StartAddr = none →
        (cmdRun c w runCfg).sent.length ≤ (cmdRun c w runCfg).capacity) := by
  have hlen := cmdRun_roles_sent_length w runCfg
  have hrole := cmdRun_roles_sent_role w runCfg
  refine ⟨cmdRun_capacity c w runCfg, cmdRun_sentBy_le_one c w runCfg, ?_, ?_, ?_⟩
  · rw [cmdRun_capacity, cmdRun_sent, List.filter_append]
    have h1 : ((match w.StartAddr with
        | some err => [(⟨Role.cache, 0, some err⟩ : Record)]
        | none => []).filter fun x : Record => x.role ≠ Role.cache) = [] := by
      cases w.StartAddr <;> simp
    rw [h1, List.nil_append]
    exact le_trans (List.length_filter_le _ _) hlen
  · rw [cmdRun_capacity, cmdRun_sent, List.length_append]
    cases w.StartAddr <;> simp only [List.length_nil, List.length_singleton] <;> omega
  · intro h
    rw [cmdRun_capacity, cmdRun_sent, h]
    simpa using hlen

/-- Witness of `cmdRun_sent_bound`: in the healthy world with the uplink
failing late, the cache started and one value is sent. -/
theorem cmdRun_sent_bound_witness :
    (cmdRun CollectErrors lateFailure fleet).sent.length
      ≤ (cmdRun CollectErrors lateFailure fleet).capacity :=
  (cmdRun_sent_bound CollectErrors lateFailure fleet).2.2.2.2 rfl

/-- C5 fails as stated: when the cache does not start and the `Run` of every
role returns, thirteen values are sent on a channel of capacity twelve. -/
theorem sends_exceed_capacity :
    (cmdRun CollectErrors allFail fleet).capacity = 12 ∧
      (cmdRun CollectErrors allFail fleet).sent.length = 13 ∧
      (∀ role, ((cmdRun CollectErrors allFail fleet).sent.filter
        fun x => x.role = role).length ≤ 1) ∧
      ¬ (cmdRun CollectErrors allFail fleet).sent.length
        ≤ (cmdRun CollectErrors allFail fleet).capacity :=
  ⟨by decide, by decide, cmdRun_sentBy_le_one CollectErrors allFail fleet, by decide⟩

end Captplanet

namespace Captplanet

/-! ### The configuration after a run -/

theorem cmdRun_runCfg (c : Collector) (w : World) (runCfg : RunCfg) :
    (cmdRun c w runCfg).runCfg = defaultSatelliteAddrs runCfg :=
  satelliteGoroutine_runCfg w runCfg

/-- C7, as the code has it: every field of `runCfg` other than
`Satellite.Audit.SatelliteAddr` and `Satellite.Web.SatelliteAddr` has the same
value after `cmdRun` as before, and each of these two keeps its value when it
was not empty; a configuration in which both are set is unchanged as a whole. -/
theorem cmdRun_runCfg_frame (c : Collector) (w : World) (runCfg : RunCfg) :
    (cmdRun c w runCfg).runCfg.StorageNodes = runCfg.StorageNodes ∧
      (cmdRun c w runCfg).runCfg.Uplink = runCfg.Uplink ∧
      (cmdRun c w runCfg).runCfg.Satellite.Identity = runCfg.Satellite.Identity ∧
      (cmdRun c w runCfg).runCfg.Satellite.Kademlia = runCfg.Satellite.Kademlia ∧
      (cmdRun c w runCfg).runCfg.Satellite.PointerDB = runCfg.Satellite.PointerDB ∧
      (cmdRun c w runCfg).runCfg.Satellite.Overlay = runCfg.Satellite.Overlay ∧
      (cmdRun c w runCfg).runCfg.Satellite.Inspector = runCfg.Satellite.Inspector ∧
      (cmdRun c w runCfg).runCfg.Satellite.Checker = runCfg.Satellite.Checker ∧
      (cmdRun c w runCfg).runCfg.Satellite.Repairer = runCfg.Satellite.Repairer ∧
      (cmdRun c w runCfg).runCfg.Satellite.Audit.rest = runCfg.Satellite.Audit.rest ∧
      (cmdRun c w runCfg).runCfg.Satellite.BwAgreement = runCfg.Satellite.BwAgreement ∧
      (cmdRun c w runCfg).runCfg.Satellite.Web.rest = runCfg.Satellite.Web.rest ∧
      (cmdRun c w runCfg).runCfg.Satellite.Database = runCfg.Satellite.Database ∧
      (cmdRun c w runCfg).runCfg.Satellite.Discovery = runCfg.Satellite.Discovery ∧
      (cmdRun c w runCfg).runCfg.Satellite.Tally = runCfg.Satellite.Tally ∧
      (cmdRun c w runCfg).runCfg.Satellite.Rollup = runCfg.Satellite.Rollup ∧
      (runCfg.Satellite.Audit.SatelliteAddr ≠ "" →
        (cmdRun c w runCfg).runCfg.Satellite.Audit.SatelliteAddr
          = runCfg.Satellite.Audit.SatelliteAddr) ∧
      (runCfg.Satellite.Web.SatelliteAddr ≠ "" →
        (cmdRun c w runCfg).runCfg.Satellite.Web.SatelliteAddr
          = runCfg.Satellite.Web.SatelliteAddr) ∧
      (runCfg.Satellite.Audit.SatelliteAddr ≠ "" → runCfg.Satellite.Web.SatelliteAddr ≠ "" →
        (cmdRun c w runCfg).runCfg = runCfg) := by
  rw [cmdRun_runCfg]
  by_cases ha : runCfg.Satellite.Audit.SatelliteAddr = "" <;>
    by_cases hw : runCfg.Satellite.Web.SatelliteAddr = "" <;>
    simp [defaultSatelliteAddrs, defaultAuditAddr, defaultWebAddr, ha, hw]

/-- Witness of `cmdRun_runCfg_frame`: a configuration with both satellite
addresses set comes out of a run as it went in. -/
theorem cmdRun_runCfg_frame_witness :
    (cmdRun CollectErrors healthy fleetWithAddrs).runCfg = fleetWithAddrs :=
  (cmdRun_runCfg_frame CollectErrors healthy fleetWithAddrs).2.2.2.2.2.2.2.2.2.2.2.2.2.2.2.2.2.2
    (by decide) (by decide)

/-- C7 fails as stated: with both satellite addresses empty before the run,
both hold the satellite's server address after it. -/
theorem runCfg_is_mutated :
    fleet.Satellite.Audit.SatelliteAddr = "" ∧
      fleet.Satellite.Web.SatelliteAddr = "" ∧
      (cmdRun CollectErrors healthy fleet).runCfg.Satellite.Audit.SatelliteAddr
        = "127.0.0.1:7778" ∧
      (cmdRun CollectErrors healthy fleet).runCfg.Satellite.Web.SatelliteAddr
        = "127.0.0.1:7778" ∧
      (cmdRun CollectErrors healthy fleet).runCfg.Satellite.Audit.SatelliteAddr
        ≠ fleet.Satellite.Audit.SatelliteAddr := by
  decide

/-! ### Error collection -/

theorem earliest_mem : ∀ (l : List (Nat × Err)) (r : Nat × Err), earliest l = some r → r ∈ l
  | [], r, h => by simp [earliest] at h
  | x :: xs, r, h => by
    unfold earliest at h
    cases he : earliest xs with
    | none =>
      rw [he] at h
      simp only [Option.some.injEq] at h
      simp [h]
    | some r' =>
      rw [he] at h
      simp only at h
      split at h
      · simp only [Option.some.injEq] at h
        simp [h]
      · simp only [Option.some.injEq] at h
        subst h
        exact List.mem_cons_of_mem _ (earliest_mem xs r' he)

theorem mem_failureRecords (l : List (Nat × Option Err)) (t : Nat) (e : Err) :
    (t, e) ∈ failureRecords l ↔ (t, some e) ∈ l := by
  simp only [failureRecords, List.mem_filterMap]
  constructor
  · rintro ⟨⟨d, o⟩, hx, h⟩
    cases o with
    | none => simp at h
    | some e' =>
      simp only [Option.map_some', Option.some.injEq, Prod.mk.injEq] at h
      obtain ⟨rfl, rfl⟩ := h
      exact hx
  · intro h
    exact ⟨(t, some e), h, rfl⟩

theorem CollectErrors_some (l : List (Nat × Option Err)) (window t : Nat) (errs : List Err)
    (h : CollectErrors l window = some (t, errs)) :
    errs ≠ [] ∧ ∀ e ∈ errs, ∃ d, (d, some e) ∈ l ∧ d ≤ t := by
  unfold CollectErrors at h
  simp only at h
  split at h
  · rename_i hne
    simp only [Option.some.injEq, Prod.mk.injEq] at h
    obtain ⟨rfl, rfl⟩ := h
    refine ⟨by simpa using hne, ?_⟩
    intro e he
    simp only [List.mem_map, List.mem_filter, decide_eq_true_eq] at he
    obtain ⟨⟨d, e'⟩, ⟨hmem, hd⟩, rfl⟩ := he
    exact ⟨d, (mem_failureRecords l d e').mp hmem, hd⟩
  · split at h
    · cases h
    · rename_i r hr
      simp only [Option.some.injEq, Prod.mk.injEq] at h
      obtain ⟨rfl, rfl⟩ := h
      refine ⟨by simp, ?_⟩
      intro e he
      simp only [List.mem_singleton] at he
      subst he
      exact ⟨r.1, (mem_failureRecords l r.1 r.2).mp (earliest_mem _ r hr), le_refl _⟩

theorem CollectErrors_none (l : List (Nat × Option Err)) (window : Nat)
    (h : ∀ x ∈ l, x.2 = none) : CollectErrors l window = none := by
  have hf : failureRecords l = [] := by
    simp only [failureRecords, List.filterMap_eq_nil_iff]
    intro x hx
    simp [h x hx]
  simp [CollectErrors, hf, earliest]

theorem CollectErrors_after_window (l : List (Nat × Option Err)) (window t : Nat)
    (errs : List Err) (hno : ∀ x ∈ l, x.2 ≠ none → window < x.1)
    (h : CollectErrors l window = some (t, errs)) : window < t := by
  have hf : (failureRecords l).filter (fun r => r.1 ≤ window) = [] := by
    rw [List.filter_eq_nil_iff]
    rintro ⟨d, e⟩ hx
    have := hno (d, some e) ((mem_failureRecords l d e).mp hx) (by simp)
    simp only [decide_eq_true_eq, not_le]
    exact this
  unfold CollectErrors at h
  simp only [hf, ne_eq, not_true_eq_false, if_false] at h
  split at h
  · cases h
  · rename_i r hr
    simp only [Option.some.injEq, Prod.mk.injEq] at h
    obtain ⟨rfl, -⟩ := h
    exact hno (r.1, some r.2) ((mem_failureRecords l r.1 r.2).mp (earliest_mem _ r hr)) (by simp)

end Captplanet

namespace Captplanet

theorem cmdRun_ret (c : Collector) (w : World) (runCfg : RunCfg) :
    (cmdRun c w runCfg).ret
      = c ((cmdRun c w runCfg).sent.map fun r => (r.delay, r.err)) 5000 :=
  rfl

theorem cmdRun_actions_of_not_returned (c : Collector) (w : World) (runCfg : RunCfg)
    (h : (cmdRun c w runCfg).ret = none) :
    (cmdRun c w runCfg).actions.getLast? = some (Action.CollectErrors 5000) ∧
      Action.Close ∉ (cmdRun c w runCfg).actions ∧
      Action.monTaskFinish ∉ (cmdRun c w runCfg).actions := by
  have hlen := runCfg.StorageNodes.size_eq
  have hl := storagenodeLaunches_not_mem runCfg
  have h1 := hl Action.Close (fun _ _ h => by cases h)
  have h2 := hl Action.monTaskFinish (fun _ _ h => by cases h)
  rw [cmdRun_ret] at h
  simp only [storagenodeLaunches, List.enum] at h1 h2
  simp only [cmdRun, startStorageNodes_actions] at h ⊢
  rw [h]
  simp only
  refine ⟨?_, ?_, ?_⟩
  · rw [List.getLast?_append]; rfl
  · cases w.StartAddr <;> simp [h1]
  · cases w.StartAddr <;> simp [h2]

/-- C4, with `CollectErrors` as the specification words it: a run of `cmdRun`
that returns has received at least one failure record, and returns only
errors that were sent, each received by the time of return; a run in which no
failure record is sent never returns and stays in `CollectErrors` (neither
deferred call runs); and a run with no failure record inside the window of
5000 ms does not return at the end of the window. -/
theorem cmdRun_returns_only_on_failure (w : World) (runCfg : RunCfg) :
    (∀ t errs, (cmdRun CollectErrors w runCfg).ret = some (t, errs) →
      errs ≠ [] ∧
        ∀ e ∈ errs, ∃ x ∈ (cmdRun CollectErrors w runCfg).sent, x.err = some e ∧ x.delay ≤ t) ∧
      ((∀ x ∈ (cmdRun CollectErrors w runCfg).sent, x.err = none) →
        (cmdRun CollectErrors w runCfg).ret = none ∧
          (cmdRun CollectErrors w runCfg).actions.getLast? = some (Action.CollectErrors 5000) ∧
          Action.Close ∉ (cmdRun CollectErrors w runCfg).actions ∧
          Action.monTaskFinish ∉ (cmdRun CollectErrors w runCfg).actions) ∧
      ((∀ x ∈ (cmdRun CollectErrors w runCfg).sent, x.err ≠ none → 5000 < x.delay) →
        ∀ t errs, (cmdRun CollectErrors w runCfg).ret = some (t, errs) → 5000 < t) := by
  refine ⟨?_, ?_, ?_⟩
  · intro t errs h
    rw [cmdRun_ret] at h
    obtain ⟨hne, hall⟩ := CollectErrors_some _ _ _ _ h
    refine ⟨hne, ?_⟩
    intro e he
    obtain ⟨d, hmem, hd⟩ := hall e he
    simp only [List.mem_map, Prod.mk.injEq] at hmem
    obtain ⟨x, hx, rfl, hxe⟩ := hmem
    exact ⟨x, hx, hxe, hd⟩
  · intro hnone
    have hret : (cmdRun CollectErrors w runCfg).ret = none := by
      rw [cmdRun_ret]
      apply CollectErrors_none
      intro x hx
      simp only [List.mem_map] at hx
      obtain ⟨y, hy, rfl⟩ := hx
      exact hnone y hy
    exact ⟨hret, cmdRun_actions_of_not_returned _ w runCfg hret⟩
  · intro hlate t errs h
    rw [cmdRun_ret] at h
    refine CollectErrors_after_window _ _ _ _ ?_ h
    intro x hx
    simp only [List.mem_map] at hx
    obtain ⟨y, hy, rfl⟩ := hx
    exact hlate y hy

/-- Witness of `cmdRun_returns_only_on_failure`: with port 6378 taken the run
returns a non-empty error; in the healthy world nothing is sent and the run
never returns; with the uplink failing after two minutes the run returns
after the window. -/
theorem cmdRun_returns_only_on_failure_witness :
    ((cmdRun CollectErrors cacheDown fleet).ret
        = some (5000, ["listen tcp :6378: bind: address already in use",
            "redis: connection refused"]) ∧
      ["listen tcp :6378: bind: address already in use", "redis: connection refused"] ≠ []) ∧
      ((cmdRun CollectErrors healthy fleet).sent = [] ∧
        (cmdRun CollectErrors healthy fleet).ret = none) ∧
      ((cmdRun CollectErrors lateFailure fleet).ret = some (120000, ["uplink: connection reset"]) ∧
        5000 < 120000) :=
  ⟨⟨by decide,
      ((cmdRun_returns_only_on_failure cacheDown fleet).1 5000 _ (by decide)).1⟩,
    ⟨by decide,
      ((cmdRun_returns_only_on_failure healthy fleet).2.1 (by decide)).1⟩,
    ⟨by decide,
      (cmdRun_returns_only_on_failure lateFailure fleet).2.2 (by decide) 120000
        ["uplink: connection reset"] (by decide)⟩⟩

/-- Witness of `cmdRun_close`: with the cache started and the uplink failing
late the run returns and `Close` is called once; with port 6378 taken `Close`
is not called. -/
theorem cmdRun_close_witness :
    (lateFailure.StartAddr = none ∧
      (cmdRun CollectErrors lateFailure fleet).ret = some (120000, ["uplink: connection reset"]) ∧
      (cmdRun CollectErrors lateFailure fleet).actions.count Action.Close = 1) ∧
      (cacheDown.StartAddr ≠ none ∧
        (cmdRun CollectErrors cacheDown fleet).actions.count Action.Close = 0) :=
  ⟨⟨rfl, by decide,
      ((cmdRun_close CollectErrors lateFailure fleet).1
        (120000, ["uplink: connection reset"]) rfl (by decide)).1⟩,
    ⟨by decide, (cmdRun_close CollectErrors cacheDown fleet).2 _ rfl⟩⟩

end Captplanet
